import Mathlib

/-!
# GameDevMap — verification of the submission/publication pipeline spec

Shallow embedding of the GameDevMap repository's read routes
(`src/server/routes/clubs.js`), the client-side intake validation
(`parseTags`, `validateCoordinates` in the submission form script) and —
where the repository ships only documentation for a component — models
built from the specification (approval state machine, snapshot
synchronizer).

Conventions of the embedding:
* JS numbers that are only compared / passed through are modelled as `ℚ`
  (no float arithmetic occurs in the modelled code paths); a JS `NaN`
  produced by `parseFloat` is modelled as `Option.none`.
* A possibly-`undefined` document field is `Option _`; the JS idiom
  `x || ''` (resp. `x || []`, `x || {}`) is `jsOrEmpty` (etc.) below.
* JS strings are manipulated through their character lists (`String.data`)
  with structurally recursive helpers, so every definition evaluates by
  kernel reduction.
-/

namespace GameDevMap

/-! ## JS string / falsiness helpers -/

/-- JS `x || ''` for a possibly-undefined string field: `undefined` and the
empty string both yield `''`, any other string passes through unchanged. -/
def jsOrEmpty : Option String → String
  | none => ""
  | some s => s

/-- JS `x || []` for a possibly-undefined array field. -/
def jsOrNil : Option (List String) → List String
  | none => []
  | some l => l

/-- JS `x || {}` for a possibly-undefined object field (a contact object is
modelled as a key/value association list). -/
def jsOrEmptyObj : Option (List (String × String)) → List (String × String)
  | none => []
  | some l => l

/-- Whitespace recognised by the modelled JS `String.prototype.trim`. -/
def isJsWs (c : Char) : Bool :=
  c = ' ' || c = '\t' || c = '\n' || c = '\r'

/-- Trim on character lists (model of JS `trim`). -/
def trimChars (l : List Char) : List Char :=
  ((l.dropWhile isJsWs).reverse.dropWhile isJsWs).reverse

/-- Model of JS `String.prototype.trim`. -/
def jsTrim (s : String) : String :=
  String.mk (trimChars s.data)

/-- `leadsWith pat l` : `pat` is an initial segment of `l`. -/
def leadsWith : List Char → List Char → Bool
  | [], _ => true
  | _ :: _, [] => false
  | a :: as, b :: bs => a == b && leadsWith as bs

/-- `hasInfix pat l` : `pat` occurs contiguously inside `l`. -/
def hasInfix (pat : List Char) : List Char → Bool
  | [] => pat.isEmpty
  | c :: cs => leadsWith pat (c :: cs) || hasInfix pat cs

/-- Model of JS `newRegExp(pattern, 'i').test(text)` for a pattern without
regex metacharacters: case-insensitive containment of `pattern` in `text`. -/
def regexTestI (pattern text : String) : Bool :=
  hasInfix (pattern.data.map Char.toLower) (text.data.map Char.toLower)

/-! ## Data model

`Club` is the Mongoose `Club` document as described by
`src/docs/API_REFERENCE.md` and as read by `src/server/routes/clubs.js`:
`coordinates` is stored `[longitude, latitude]`, `description` and
`shortDescription` are two independent strings, `sourceSubmission` /
`verifiedBy` / `__v` are internal fields that the read routes strip via
`.select(-__v -sourceSubmission -verifiedBy)`. Timestamps are abstract
`Nat` instants. Every document in the `Club` collection is an approved
club by construction (only approval creates one). -/

structure Club where
  _id : String
  name : String
  school : String
  province : String
  city : Option String
  coordinates : List ℚ
  description : Option String
  shortDescription : Option String
  tags : Option (List String)
  logo : Option String
  website : Option String
  contact : Option (List (String × String))
  sourceSubmission : Option String
  verifiedBy : Option String
  createdAt : Nat
  updatedAt : Nat
  __v : Nat
deriving DecidableEq

/-- Shape of one entry of the `GET /api/clubs` response array
(`formattedClubs` in `src/server/routes/clubs.js`, lines 38–55). The JSON
has no `__v`, `sourceSubmission` or `verifiedBy` member. A JS
`club.coordinates[1]` that indexes past the end is `undefined`, hence the
`Option ℚ` type of `latitude`/`longitude`. -/
structure FormattedClub where
  id : String
  name : String
  school : String
  city : String
  province : String
  latitude : Option ℚ
  longitude : Option ℚ
  img_name : String
  short_description : String
  long_description : String
  tags : List String
  website : String
  contact : List (String × String)
  shortDescription : String
  description : String
  coordinates : List ℚ
deriving DecidableEq

/-- Shape of the `GET /api/clubs/:id` response object
(`formattedClub` in `src/server/routes/clubs.js`, lines 92–106). -/
structure FormattedClubDetail where
  id : String
  name : String
  school : String
  city : String
  province : String
  latitude : Option ℚ
  longitude : Option ℚ
  img_name : String
  short_description : String
  long_description : String
  tags : List String
  website : String
  contact : List (String × String)
deriving DecidableEq

/-- The per-club projection of `GET /api/clubs`
(`src/server/routes/clubs.js` lines 38–55). The Mongoose virtual
`club.id` is `club._id.toString()`, so `club.id || club._id.toString()`
is modelled as `c._id`. -/
def formatClub (c : Club) : FormattedClub where
  id := c._id
  name := c.name
  school := c.school
  city := jsOrEmpty c.city
  province := c.province
  latitude := c.coordinates[1]?
  longitude := c.coordinates[0]?
  img_name := jsOrEmpty c.logo
  short_description := jsOrEmpty c.shortDescription
  long_description := jsOrEmpty c.description
  tags := jsOrNil c.tags
  website := jsOrEmpty c.website
  contact := jsOrEmptyObj c.contact
  shortDescription := jsOrEmpty c.shortDescription
  description := jsOrEmpty c.description
  coordinates := c.coordinates

/-- The per-club projection of `GET /api/clubs/:id`
(`src/server/routes/clubs.js` lines 92–106). -/
def formatClubDetail (c : Club) : FormattedClubDetail where
  id := c._id
  name := c.name
  school := c.school
  city := jsOrEmpty c.city
  province := c.province
  latitude := c.coordinates[1]?
  longitude := c.coordinates[0]?
  img_name := jsOrEmpty c.logo
  short_description := jsOrEmpty c.shortDescription
  long_description := jsOrEmpty c.description
  tags := jsOrNil c.tags
  website := jsOrEmpty c.website
  contact := jsOrEmptyObj c.contact

/-! ## The two public read endpoints -/

/-- Outcome of one HTTP handler call: `ok status data` is a
`res.status(status).json(\x7bsuccess: true, ...\x7d)` response, `err` the
`success: false` shape with its taxonomy `error` code and message. -/
inductive ApiResult (α : Type) where
  | ok (status : Nat) (data : α)
  | err (status : Nat) (error : String) (message : String)
deriving DecidableEq

/-- One club of the store matches the search regex when `name`, `school`,
`province` or `city` matches (`$or` query, `src/server/routes/clubs.js`
lines 22–29); a Mongo regex condition on an absent field does not match. -/
def matchesSearch (pat : String) (c : Club) : Bool :=
  regexTestI pat c.name || regexTestI pat c.school || regexTestI pat c.province ||
    (match c.city with
      | none => false
      | some s => regexTestI pat s)

instance : DecidableRel (fun a b : Club => b.createdAt ≤ a.createdAt) :=
  fun _ _ => Nat.decLe _ _

/-- `Club.find(query).sort(\x7bcreatedAt: -1\x7d).limit(search ? 20 : undefined)`
(`src/server/routes/clubs.js` lines 16–35).  The filter applies only when
the search parameter is present with a non-blank trim; the `limit(20)`
applies whenever the raw parameter is a truthy (non-empty) string — even a
blank one.  Mongo's sort order is modelled as a stable insertion sort on
`createdAt`, newest first. -/
def clubsQuery (clubs : List Club) (search : Option String) : List Club :=
  let filtered :=
    match search with
    | some s => if jsTrim s ≠ "" then clubs.filter (matchesSearch (jsTrim s)) else clubs
    | none => clubs
  let sorted := List.insertionSort (fun a b : Club => b.createdAt ≤ a.createdAt) filtered
  match search with
  | some s => if s ≠ "" then sorted.take 20 else sorted
  | none => sorted

/-- `GET /api/clubs` (`src/server/routes/clubs.js` lines 14–70).  The
store is an `Except`: `.error ()` models an unreachable authoritative
store (the `await` throws), in which case the `catch` block answers
HTTP 500 with code `SERVER_ERROR`. -/
def getClubsHandler (store : Except Unit (List Club)) (search : Option String) :
    ApiResult (List FormattedClub × Nat) :=
  match store with
  | .error _ => .err 500 "SERVER_ERROR" "获取社团列表失败"
  | .ok clubs =>
    let formatted := (clubsQuery clubs search).map formatClub
    .ok 200 (formatted, formatted.length)

/-- Hexadecimal digit, as accepted by the ObjectId cast. -/
def isHexDigitChar (c : Char) : Bool :=
  ('0' ≤ c && c ≤ '9') || ('a' ≤ c && c ≤ 'f') || ('A' ≤ c && c ≤ 'F')

/-- Mongoose's cast of a string route parameter to an `ObjectId`
(`Club.findById(req.params.id)`): a 24-character hexadecimal string — or a
12-character string taken as 12 raw bytes — casts successfully; any other
string makes the awaited query reject with a `CastError`. -/
def isValidObjectId (s : String) : Bool :=
  s.data.length = 12 || (s.data.length = 24 && s.data.all isHexDigitChar)

/-- `GET /api/clubs/:id` (`src/server/routes/clubs.js` lines 79–120).
`Club.findById` is the first store document whose `_id` equals the
requested id.  A syntactically invalid id makes `findById` reject with a
Mongoose `CastError`, which lands in the same `catch` block (lines
112–119) as an unreachable store: both answer 500 `SERVER_ERROR`. -/
def getClubByIdHandler (store : Except Unit (List Club)) (id : String) :
    ApiResult FormattedClubDetail :=
  match store with
  | .error _ => .err 500 "SERVER_ERROR" "获取社团详情失败"
  | .ok clubs =>
    if isValidObjectId id then
      match clubs.find? (fun c => c._id == id) with
      | none => .err 404 "NOT_FOUND" "未找到该社团"
      | some c => .ok 200 (formatClubDetail c)
    else .err 500 "SERVER_ERROR" "获取社团详情失败"

end GameDevMap

namespace GameDevMap

/-! ## C1 — coordinate order in the read projections -/

/-- A demonstration club stored with coordinates `[116.3267, 39.9995]`
(the (longitude, latitude) pair of the spec's end-to-end scenario). -/
def demoClub : Club where
  _id := "673257c0c5e4f2a1d8b9e013"
  name := "游戏社"
  school := "清华大学"
  province := "北京市"
  city := some "海淀区"
  coordinates := [116.3267, 39.9995]
  description := some "B B B"
  shortDescription := some "A"
  tags := some ["游戏开发"]
  logo := none
  website := none
  contact := none
  sourceSubmission := some "673257b8c5e4f2a1d8b9e012"
  verifiedBy := some "admin1"
  createdAt := 100
  updatedAt := 100
  __v := 0

/-- C1: a Club stored with `coordinates = [longitude, latitude]` is served
by both public read projections (`GET /api/clubs` and `GET /api/clubs/:id`)
with `latitude = coordinates[1]` and `longitude = coordinates[0]`. -/
theorem read_projections_swap_coordinates (c : Club) (lng lat : ℚ)
    (h : c.coordinates = [lng, lat]) :
    (formatClub c).latitude = some lat ∧ (formatClub c).longitude = some lng ∧
      (formatClubDetail c).latitude = some lat ∧ (formatClubDetail c).longitude = some lng ∧
      getClubsHandler (.ok [c]) none = .ok 200 ([formatClub c], 1) := by
  refine ⟨?_, ?_, ?_, ?_, rfl⟩ <;> simp [formatClub, formatClubDetail, h]

/-- C1 witness: the record stored with `[116.3267, 39.9995]` is served with
latitude `39.9995` and longitude `116.3267`. -/
theorem read_projections_swap_coordinates_witness :
    (formatClub demoClub).latitude = some (39.9995 : ℚ) ∧
      (formatClub demoClub).longitude = some (116.3267 : ℚ) ∧
      (formatClubDetail demoClub).latitude = some (39.9995 : ℚ) ∧
      (formatClubDetail demoClub).longitude = some (116.3267 : ℚ) ∧
      getClubsHandler (.ok [demoClub]) none = .ok 200 ([formatClub demoClub], 1) :=
  read_projections_swap_coordinates demoClub 116.3267 39.9995 rfl

/-! ## C2 — the two description fields are independent pass-throughs -/

/-- C2: both read projections output `short_description` as the stored
`shortDescription` passed through unchanged and `long_description` as the
stored `description` passed through unchanged; an absent stored field
yields the empty string (the field is never omitted, never defaulted from
the other description). -/
theorem descriptions_passed_through (c : Club) :
    (∀ s, c.shortDescription = some s →
      (formatClub c).short_description = s ∧ (formatClubDetail c).short_description = s) ∧
    (∀ s, c.description = some s →
      (formatClub c).long_description = s ∧ (formatClubDetail c).long_description = s) ∧
    (c.shortDescription = none →
      (formatClub c).short_description = "" ∧ (formatClubDetail c).short_description = "") ∧
    (c.description = none →
      (formatClub c).long_description = "" ∧ (formatClubDetail c).long_description = "") := by
  refine ⟨fun s hs => ?_, fun s hs => ?_, fun hn => ?_, fun hn => ?_⟩ <;>
    simp [formatClub, formatClubDetail, jsOrEmpty, *]

/-- C2 witness: the scenario record with `shortDescription = "A"` and
`description = "B B B"` is served with both fields intact. -/
theorem descriptions_passed_through_witness :
    (formatClub demoClub).short_description = "A" ∧
      (formatClubDetail demoClub).short_description = "A" ∧
      (formatClub demoClub).long_description = "B B B" ∧
      (formatClubDetail demoClub).long_description = "B B B" :=
  ⟨((descriptions_passed_through demoClub).1 "A" rfl).1,
   ((descriptions_passed_through demoClub).1 "A" rfl).2,
   ((descriptions_passed_through demoClub).2.1 "B B B" rfl).1,
   ((descriptions_passed_through demoClub).2.1 "B B B" rfl).2⟩

/-! ## C5 — NOT_FOUND and the malformed-id path -/

/-- C5 counterexample: the id `"missing"` references no existing Club
record, yet `GET /api/clubs/:id` answers 500 `SERVER_ERROR` — the Mongoose
`CastError` on the malformed ObjectId lands in the `catch` block — and not
`NOT_FOUND` as the claim requires. -/
theorem malformed_id_gets_server_error :
    getClubByIdHandler (.ok [demoClub]) "missing" =
        .err 500 "SERVER_ERROR" "获取社团详情失败" ∧
      demoClub._id ≠ "missing" ∧
      getClubByIdHandler (.ok [demoClub]) "missing" ≠
        .err 404 "NOT_FOUND" "未找到该社团" :=
  ⟨rfl, by decide, by decide⟩

/-- C5 amended: with the store reachable, `GET /api/clubs/:id` answers the
`NOT_FOUND` error exactly when the id is a well-formed ObjectId that no
stored club bears; a malformed id is answered 500 `SERVER_ERROR` (its
Mongoose `CastError` lands in the `catch` block); and when `findById`
locates a club the handler answers 200 with that club's detail
projection. -/
theorem get_club_by_id_semantics (clubs : List Club) (id : String) :
    (isValidObjectId id = true →
      (getClubByIdHandler (.ok clubs) id = .err 404 "NOT_FOUND" "未找到该社团" ↔
        ∀ c ∈ clubs, c._id ≠ id)) ∧
    (isValidObjectId id = false →
      getClubByIdHandler (.ok clubs) id = .err 500 "SERVER_ERROR" "获取社团详情失败") ∧
    (∀ c, isValidObjectId id = true → clubs.find? (fun d => d._id == id) = some c →
      getClubByIdHandler (.ok clubs) id = .ok 200 (formatClubDetail c)) := by
  refine ⟨fun hv => ?_, fun hv => by simp [getClubByIdHandler, hv],
    fun c hv hc => by simp [getClubByIdHandler, hv, hc]⟩
  cases hf : clubs.find? (fun c => c._id == id) with
  | none =>
    have hres : getClubByIdHandler (.ok clubs) id = .err 404 "NOT_FOUND" "未找到该社团" := by
      simp [getClubByIdHandler, hv, hf]
    rw [hres]
    simp only [List.find?_eq_none, beq_iff_eq] at hf
    exact ⟨fun _ => hf, fun _ => rfl⟩
  | some c =>
    have hres : getClubByIdHandler (.ok clubs) id = .ok 200 (formatClubDetail c) := by
      simp [getClubByIdHandler, hv, hf]
    rw [hres]
    have hmem := List.mem_of_find?_eq_some hf
    have hid : c._id = id := by simpa using List.find?_some hf
    constructor
    · intro h; cases h
    · intro h; exact absurd hid (h c hmem)

/-- C5 witness: a store holding only `demoClub` answers `NOT_FOUND` for a
well-formed unknown id, 500 `SERVER_ERROR` for the malformed id
`"missing"`, and the club's detail for its own id. -/
theorem get_club_by_id_semantics_witness :
    (getClubByIdHandler (.ok [demoClub]) "ffffffffffffffffffffffff" =
        .err 404 "NOT_FOUND" "未找到该社团" ↔
      ∀ c ∈ [demoClub], c._id ≠ "ffffffffffffffffffffffff") ∧
      getClubByIdHandler (.ok [demoClub]) "missing" =
        .err 500 "SERVER_ERROR" "获取社团详情失败" ∧
      getClubByIdHandler (.ok [demoClub]) "673257c0c5e4f2a1d8b9e013" =
        .ok 200 (formatClubDetail demoClub) :=
  ⟨(get_club_by_id_semantics [demoClub] "ffffffffffffffffffffffff").1 (by decide),
   (get_club_by_id_semantics [demoClub] "missing").2.1 (by decide),
   (get_club_by_id_semantics [demoClub] "673257c0c5e4f2a1d8b9e013").2.2 demoClub
     (by decide) rfl⟩

/-! ## C8 — store failure on the read paths -/

/-- C8 counterexample: when the authoritative store is unreachable,
`GET /api/clubs` surfaces the failure under the taxonomy code
`SERVER_ERROR`, not `STORE_UNAVAILABLE` as the claim states. -/
theorem store_error_code_is_server_error :
    getClubsHandler (.error ()) none = .err 500 "SERVER_ERROR" "获取社团列表失败" ∧
      getClubByIdHandler (.error ()) "673257c0c5e4f2a1d8b9e013" =
        .err 500 "SERVER_ERROR" "获取社团详情失败" ∧
      "SERVER_ERROR" ≠ "STORE_UNAVAILABLE" :=
  ⟨rfl, rfl, by decide⟩

/-- C8 amended: an unreachable store during either listing call is always
surfaced to the caller as a retryable HTTP 500 failure (never absorbed
into a success response), but under the generic code `SERVER_ERROR`. -/
theorem store_unreachable_surfaced (search : Option String) (id : String) :
    getClubsHandler (.error ()) search = .err 500 "SERVER_ERROR" "获取社团列表失败" ∧
      getClubByIdHandler (.error ()) id = .err 500 "SERVER_ERROR" "获取社团详情失败" :=
  ⟨rfl, rfl⟩

/-! ## C4 — search semantics of the listing -/

/-- A minimal stored club (all optional fields absent) used for concrete
search scenarios; its name matches the search term `"club"`
case-insensitively. -/
def mkPlainClub (i : String) (t : Nat) : Club where
  _id := i
  name := "Game Club"
  school := ""
  province := ""
  city := none
  coordinates := []
  description := none
  shortDescription := none
  tags := none
  logo := none
  website := none
  contact := none
  sourceSubmission := none
  verifiedBy := none
  createdAt := t
  updatedAt := t
  __v := 0

/-- A store of 21 approved clubs, every one of which matches the search
term `"club"`; `createdAt` increases with the letter of the id. -/
def searchDemoStore : List Club :=
  [mkPlainClub "a" 1, mkPlainClub "b" 2, mkPlainClub "c" 3, mkPlainClub "d" 4,
   mkPlainClub "e" 5, mkPlainClub "f" 6, mkPlainClub "g" 7, mkPlainClub "h" 8,
   mkPlainClub "i" 9, mkPlainClub "j" 10, mkPlainClub "k" 11, mkPlainClub "l" 12,
   mkPlainClub "m" 13, mkPlainClub "n" 14, mkPlainClub "o" 15, mkPlainClub "p" 16,
   mkPlainClub "q" 17, mkPlainClub "r" 18, mkPlainClub "s" 19, mkPlainClub "t" 20,
   mkPlainClub "u" 21]

/-- C4 counterexample: with 21 stored clubs all matching the non-blank
search term `"club"`, `GET /api/clubs?search=club` returns only the 20
newest (`.limit(search ? 20 : undefined)` in `src/server/routes/clubs.js`
line 35): the oldest matching club is absent from the result, so the
listing does not return exactly the matching clubs. -/
theorem search_limit_counterexample :
    mkPlainClub "a" 1 ∈ searchDemoStore ∧
      matchesSearch "club" (mkPlainClub "a" 1) = true ∧
      mkPlainClub "a" 1 ∉ clubsQuery searchDemoStore (some "club") ∧
      (clubsQuery searchDemoStore (some "club")).length = 20 := by
  decide

/-- C4 amended: for a search term that is non-blank after trimming, every
returned club is a stored club matching the trimmed term case-insensitively
on name, school, province or city; the result is exactly the matching
clubs whenever at most 20 clubs match (with a search term the listing is
capped at the 20 newest); with the parameter absent or equal to the empty
string, every approved club is returned. -/
theorem clubs_search_semantics (clubs : List Club) (s : String) (hs : jsTrim s ≠ "") :
    (∀ c ∈ clubsQuery clubs (some s), c ∈ clubs ∧ matchesSearch (jsTrim s) c = true) ∧
    ((clubs.filter (matchesSearch (jsTrim s))).length ≤ 20 →
      (clubsQuery clubs (some s)).Perm (clubs.filter (matchesSearch (jsTrim s)))) ∧
    (clubsQuery clubs none).Perm clubs ∧
    (clubsQuery clubs (some "")).Perm clubs := by
  have hs' : s ≠ "" := fun h => hs (by rw [h]; rfl)
  have hq : clubsQuery clubs (some s) =
      (List.insertionSort (fun a b : Club => b.createdAt ≤ a.createdAt)
        (clubs.filter (matchesSearch (jsTrim s)))).take 20 := by
    simp [clubsQuery, hs, hs']
  refine ⟨?_, ?_, ?_, ?_⟩
  · intro c hc
    rw [hq] at hc
    have hc' := List.mem_of_mem_take hc
    rw [List.mem_insertionSort] at hc'
    exact ⟨(List.mem_filter.mp hc').1, (List.mem_filter.mp hc').2⟩
  · intro hlen
    rw [hq, List.take_of_length_le (by rw [List.length_insertionSort]; exact hlen)]
    exact List.perm_insertionSort _ _
  · simpa [clubsQuery] using List.perm_insertionSort
      (fun a b : Club => b.createdAt ≤ a.createdAt) clubs
  · simpa [clubsQuery] using List.perm_insertionSort
      (fun a b : Club => b.createdAt ≤ a.createdAt) clubs

/-- C4 witness: the amended search semantics at a one-club store and the
term `"club"`. -/
theorem clubs_search_semantics_witness :
    (∀ c ∈ clubsQuery [mkPlainClub "a" 1] (some "club"),
        c ∈ [mkPlainClub "a" 1] ∧ matchesSearch (jsTrim "club") c = true) ∧
    (([mkPlainClub "a" 1].filter (matchesSearch (jsTrim "club"))).length ≤ 20 →
      (clubsQuery [mkPlainClub "a" 1] (some "club")).Perm
        ([mkPlainClub "a" 1].filter (matchesSearch (jsTrim "club")))) ∧
    (clubsQuery [mkPlainClub "a" 1] none).Perm [mkPlainClub "a" 1] ∧
    (clubsQuery [mkPlainClub "a" 1] (some "")).Perm [mkPlainClub "a" 1] :=
  clubs_search_semantics [mkPlainClub "a" 1] "club" (by decide)

/-! ## Intake validation (submission form script, `src/unnamed/part_000`) -/

/-- The tag separators of `parseTags`: the regex class `[,，\n]`. -/
def isTagSep (c : Char) : Bool :=
  c = ',' || c = '，' || c = '\n'

/-- JS `String.prototype.split` on a character class, over char lists:
`splitChars p l` cuts `l` at every separator; `n` separators yield `n + 1`
(possibly empty) segments. -/
def splitChars (p : Char → Bool) : List Char → List (List Char)
  | [] => [[]]
  | c :: cs =>
    if p c then [] :: splitChars p cs
    else
      match splitChars p cs with
      | [] => [[c]]
      | t :: ts => (c :: t) :: ts

/-- `raw.split(/[,，\n]/).map(tag => tag.trim()).filter(Boolean)`
(the segment pipeline inside `parseTags`). -/
def tagSegments (raw : String) : List String :=
  (((splitChars isTagSep raw.data).map trimChars).map String.mk).filter (fun t => t != "")

/-- `parseTags` from the submission form script (`src/unnamed/part_000`
lines 423–438): falsy (empty) input yields `[]`; otherwise the input is
split on comma / Chinese comma / newline, each segment trimmed and empty
segments dropped; more than 10 resulting tags is an error.  The function
performs no per-item length check. -/
def parseTags (raw : String) : Except String (List String) :=
  if raw = "" then .ok []
  else
    let tags := tagSegments raw
    if tags.length > 10 then .error "标签数量最多 10 个，请删除多余的标签"
    else .ok tags

/-- `validateCoordinates` (`src/unnamed/part_000` lines 443–453): a `NaN`
input (modelled as `none`, the result of `parseFloat` on a non-numeric
string) is rejected first, then latitude is required in `[-90, 90]`, then
longitude in `[-180, 180]`. -/
def validateCoordinates (lat lng : Option ℚ) : Except String Unit :=
  match lat, lng with
  | some la, some ln =>
    if la < -90 ∨ la > 90 then .error "纬度必须在 -90 到 90 之间"
    else if ln < -180 ∨ ln > 180 then .error "经度必须在 -180 到 180 之间"
    else .ok ()
  | _, _ => .error "请填写有效的经纬度坐标"

/-- The coordinate/tag part of a validated submission payload. -/
structure SubmissionPayload where
  latitude : ℚ
  longitude : ℚ
  tags : List String
deriving DecidableEq

/-- The form submit handler (`src/unnamed/part_000` lines 584–656)
constructs the submission payload only after `validateCoordinates` and
`parseTags` return without throwing; a thrown error aborts the submission
before any payload exists. -/
def buildSubmissionPayload (lat lng : Option ℚ) (rawTags : String) :
    Except String SubmissionPayload :=
  match validateCoordinates lat lng with
  | .error e => .error e
  | .ok _ =>
    match parseTags rawTags with
    | .error e => .error e
    | .ok tags =>
      match lat, lng with
      | some la, some ln => .ok ⟨la, ln, tags⟩
      | _, _ => .error "请填写有效的经纬度坐标"

/-! ## C6 — coordinate validation -/

/-- C6: `validateCoordinates` succeeds exactly when the latitude is a
number in `[-90, 90]` and the longitude a number in `[-180, 180]`, and a
submission payload is only constructed from a pair that passed this
check (with those very values as its coordinates). -/
theorem validate_coordinates_range (lat lng : Option ℚ) (rawTags : String) :
    (validateCoordinates lat lng = .ok () ↔
      ((∃ a, lat = some a ∧ -90 ≤ a ∧ a ≤ 90) ∧
        (∃ b, lng = some b ∧ -180 ≤ b ∧ b ≤ 180))) ∧
    (∀ p, buildSubmissionPayload lat lng rawTags = .ok p →
      validateCoordinates lat lng = .ok () ∧
        lat = some p.latitude ∧ lng = some p.longitude ∧
        -90 ≤ p.latitude ∧ p.latitude ≤ 90 ∧
        -180 ≤ p.longitude ∧ p.longitude ≤ 180) := by
  have hiff : validateCoordinates lat lng = .ok () ↔
      ((∃ a, lat = some a ∧ -90 ≤ a ∧ a ≤ 90) ∧
        (∃ b, lng = some b ∧ -180 ≤ b ∧ b ≤ 180)) := by
    cases lat with
    | none => simp [validateCoordinates]
    | some la =>
      cases lng with
      | none => simp [validateCoordinates]
      | some ln =>
        simp only [validateCoordinates]
        split_ifs with h1 h2
        · constructor
          · intro h; cases h
          · rintro ⟨⟨a, ha, hal, har⟩, -⟩
            obtain rfl : a = la := by injection ha with h; exact h.symm
            rcases h1 with h1 | h1 <;> linarith
        · constructor
          · intro h; cases h
          · rintro ⟨-, b, hb, hbl, hbr⟩
            obtain rfl : b = ln := by injection hb with h; exact h.symm
            rcases h2 with h2 | h2 <;> linarith
        · push_neg at h1 h2
          exact ⟨fun _ => ⟨⟨la, rfl, h1.1, h1.2⟩, ⟨ln, rfl, h2.1, h2.2⟩⟩, fun _ => rfl⟩
  refine ⟨hiff, fun p hp => ?_⟩
  rcases hv : validateCoordinates lat lng with e | u
  · rw [buildSubmissionPayload, hv] at hp
    cases hp
  · cases u
    obtain ⟨⟨a, ha, hal, har⟩, ⟨b, hb, hbl, hbr⟩⟩ := hiff.mp hv
    subst ha; subst hb
    rw [buildSubmissionPayload, hv] at hp
    rcases hpt : parseTags rawTags with e | tags <;> rw [hpt] at hp
    · cases hp
    · cases hp
      exact ⟨rfl, rfl, rfl, hal, har, hbl, hbr⟩

/-- C6 witness: the scenario coordinates (lat 39.9995, lng 116.3267) pass
validation and yield a payload carrying exactly those values. -/
theorem validate_coordinates_range_witness :
    validateCoordinates (some 39.9995) (some 116.3267) = .ok () ∧
      validateCoordinates (some 39.9995) (some 116.3267) = .ok () ∧
        some (39.9995 : ℚ) = some (39.9995 : ℚ) ∧ some (116.3267 : ℚ) = some (116.3267 : ℚ) ∧
        -90 ≤ (39.9995 : ℚ) ∧ (39.9995 : ℚ) ≤ 90 ∧
        -180 ≤ (116.3267 : ℚ) ∧ (116.3267 : ℚ) ≤ 180 :=
  ⟨(validate_coordinates_range (some 39.9995) (some 116.3267) "").1.mpr
      ⟨⟨39.9995, rfl, by norm_num, by norm_num⟩, ⟨116.3267, rfl, by norm_num, by norm_num⟩⟩,
   (validate_coordinates_range (some 39.9995) (some 116.3267) "").2 ⟨39.9995, 116.3267, []⟩
      (by norm_num [buildSubmissionPayload, validateCoordinates, parseTags])⟩

/-! ## C7 — tag parsing -/

/-- C7 counterexample: `parseTags` enforces no per-item length limit: a
single 25-character tag (beyond the documented 20-character per-tag bound)
is accepted unchanged instead of being rejected. -/
theorem parse_tags_no_item_length_check :
    parseTags "aaaaaaaaaaaaaaaaaaaaaaaaa" = .ok ["aaaaaaaaaaaaaaaaaaaaaaaaa"] ∧
      ("aaaaaaaaaaaaaaaaaaaaaaaaa" : String).length = 25 ∧ 20 < 25 :=
  ⟨rfl, rfl, by decide⟩

/-- C7 amended: `parseTags` yields exactly the non-empty trimmed segments
of the input split on comma / Chinese comma / newline and errors exactly
when they number more than 10; every successful parse returns those
segments (at most 10 of them).  It enforces no per-item length limit. -/
theorem parse_tags_count_bounded (raw : String) :
    ((tagSegments raw).length ≤ 10 → parseTags raw = .ok (tagSegments raw)) ∧
    ((tagSegments raw).length > 10 →
      parseTags raw = .error "标签数量最多 10 个，请删除多余的标签") ∧
    (∀ ts, parseTags raw = .ok ts → ts = tagSegments raw ∧ ts.length ≤ 10) := by
  by_cases h : raw = ""
  · subst h
    refine ⟨fun _ => rfl, fun hgt => absurd hgt (by decide), fun ts hts => ?_⟩
    simp [parseTags] at hts
    subst hts
    exact ⟨rfl, by decide⟩
  · have hle : parseTags raw =
        if (tagSegments raw).length > 10 then
          .error "标签数量最多 10 个，请删除多余的标签"
        else .ok (tagSegments raw) := by
      simp [parseTags, h]
    rw [hle]
    by_cases hlen : (tagSegments raw).length > 10
    · rw [if_pos hlen]
      refine ⟨fun hle10 => absurd hlen (by omega), fun _ => rfl, fun ts hts => ?_⟩
      cases hts
    · rw [if_neg hlen]
      refine ⟨fun _ => rfl, fun hgt => absurd hgt hlen, fun ts hts => ?_⟩
      injection hts with h'
      subst h'
      exact ⟨rfl, by omega⟩

/-- C7 witness: a mixed-separator input parses to its four trimmed
segments. -/
theorem parse_tags_count_bounded_witness :
    parseTags "a, b，c\nd" = .ok (tagSegments "a, b，c\nd") ∧
      tagSegments "a, b，c\nd" = ["a", "b", "c", "d"] :=
  ⟨(parse_tags_count_bounded "a, b，c\nd").1 (by decide), by decide⟩

/-! ## C9 — the Snapshot Synchronizer (modelled from the spec) -/

/-- Deterministic textual form of a rational, for snapshot serialization. -/
def ratStr (q : ℚ) : String :=
  toString q.num ++ "/" ++ toString q.den

/-- Serialization of a possibly-undefined coordinate. -/
def optRatStr : Option ℚ → String
  | none => "null"
  | some q => ratStr q

/-- Serialization of a contact object. -/
def serializeContact (l : List (String × String)) : String :=
  String.intercalate ";" (l.map (fun kv => kv.1 ++ "=" ++ kv.2))

/-- Deterministic one-line serialization of one snapshot entry. -/
def serializeEntry (e : FormattedClub) : String :=
  String.intercalate "|" [e.id, e.name, e.school, e.city, e.province,
    optRatStr e.latitude, optRatStr e.longitude, e.img_name, e.short_description,
    e.long_description, String.intercalate "," e.tags, e.website,
    serializeContact e.contact]

instance : DecidableRel (fun a b : String => a ≤ b) :=
  fun a b => inferInstanceAs (Decidable (a ≤ b))

/-- Modelled from the spec: the snapshot produced by one run of the
Snapshot Synchronizer (`server/scripts/syncToJson.js` is not under
`src/`).  `rebuild()` reads the complete set of Published Records,
projects each into the snapshot shape (field renames, (longitude,
latitude) coordinate order, direct pass-through of both descriptions) and
serializes them; the spec requires runs to be idempotent and
order-independent, so the serialization fixes a canonical entry order. -/
def snapshotContent (clubs : List Club) : String :=
  String.intercalate "\n"
    (List.insertionSort (fun a b : String => a ≤ b)
      (clubs.map (fun c => serializeEntry (formatClub c))))

/-- State touched by the synchronizer: the authoritative store's Published
Records, the snapshot file and its fixed backup path. -/
structure SyncState where
  clubs : List Club
  snapshotFile : String
  backupFile : String
deriving DecidableEq

/-- Modelled from the spec: one `rebuild()` run — back up the current
snapshot file to the fixed backup path (overwriting the previous backup),
then atomically replace the snapshot with the projection of the current
Published Records. -/
def rebuild (st : SyncState) : SyncState where
  clubs := st.clubs
  snapshotFile := snapshotContent st.clubs
  backupFile := st.snapshotFile

/-- C9: running `rebuild()` twice in a row with no intervening change to
the Published Records leaves the identical (byte-for-byte) snapshot file,
and the produced snapshot content does not depend on the order in which
the store enumerates the records. -/
theorem rebuild_idempotent_and_order_independent
    (st : SyncState) (l₁ l₂ : List Club) (h : l₁.Perm l₂) :
    (rebuild (rebuild st)).snapshotFile = (rebuild st).snapshotFile ∧
      snapshotContent l₁ = snapshotContent l₂ := by
  refine ⟨rfl, ?_⟩
  unfold snapshotContent
  congr 1
  exact List.eq_of_perm_of_sorted
    (((List.perm_insertionSort (fun a b : String => a ≤ b) _).trans
      (h.map _)).trans (List.perm_insertionSort (fun a b : String => a ≤ b) _).symm)
    (List.sorted_insertionSort (fun a b : String => a ≤ b) _)
    (List.sorted_insertionSort (fun a b : String => a ≤ b) _)

/-- C9 witness: two runs over a two-record store, enumerated in either
order, leave the same snapshot file. -/
theorem rebuild_idempotent_and_order_independent_witness :
    (rebuild (rebuild ⟨[demoClub], "old", "older"⟩)).snapshotFile =
        (rebuild ⟨[demoClub], "old", "older"⟩).snapshotFile ∧
      snapshotContent [demoClub, mkPlainClub "a" 1] =
        snapshotContent [mkPlainClub "a" 1, demoClub] :=
  rebuild_idempotent_and_order_independent ⟨[demoClub], "old", "older"⟩
    [demoClub, mkPlainClub "a" 1] [mkPlainClub "a" 1, demoClub]
    (List.Perm.swap (mkPlainClub "a" 1) demoClub [])

/-! ## C10 — public output does not depend on the internal fields -/

/-- The public view of a stored club: the internal fields dropped by
`.select(-__v -sourceSubmission -verifiedBy)` are reset to fixed values,
every other field is kept. -/
def scrub (c : Club) : Club :=
  { c with __v := 0, sourceSubmission := none, verifiedBy := none }

theorem formatClub_scrub (c : Club) : formatClub (scrub c) = formatClub c := rfl

theorem formatClubDetail_scrub (c : Club) :
    formatClubDetail (scrub c) = formatClubDetail c := rfl

theorem clubsQuery_scrub (clubs : List Club) (search : Option String) :
    clubsQuery (clubs.map scrub) search = (clubsQuery clubs search).map scrub := by
  have hfil : ∀ p : String,
      (clubs.map scrub).filter (matchesSearch p) =
        (clubs.filter (matchesSearch p)).map scrub := by
    intro p
    rw [List.filter_map]
    rfl
  have hsort : ∀ m : List Club,
      List.insertionSort (fun a b : Club => b.createdAt ≤ a.createdAt) (m.map scrub) =
        (List.insertionSort (fun a b : Club => b.createdAt ≤ a.createdAt) m).map scrub := by
    intro m
    exact (List.map_insertionSort (fun a b : Club => b.createdAt ≤ a.createdAt)
      (fun a b : Club => b.createdAt ≤ a.createdAt) scrub m
      (fun a _ b _ => Iff.rfl)).symm
  cases search with
  | none => exact hsort clubs
  | some s =>
    simp only [clubsQuery]
    split_ifs <;> simp [hfil, hsort, List.map_take]

theorem find?_scrub (id : String) : ∀ l : List Club,
    (l.map scrub).find? (fun c => c._id == id) =
      (l.find? (fun c => c._id == id)).map scrub
  | [] => rfl
  | c :: cs => by
    cases h : (c._id == id) with
    | true =>
      have h' : ((scrub c)._id == id) = true := h
      simp [List.find?, h, h']
    | false =>
      have h' : ((scrub c)._id == id) = false := h
      simp [List.find?, h, h', find?_scrub id cs]

/-- C10: neither public read endpoint's response depends on the stripped
internal fields `__v`, `sourceSubmission`, `verifiedBy`: the per-club
projections agree on any two clubs that agree on all public fields, and
the full endpoint responses agree on any two stores whose records agree on
all public fields (in particular on stores differing only in
`sourceSubmission` and `verifiedBy`). -/
theorem public_responses_independent_of_internal_fields
    (c c' : Club) (hc : scrub c = scrub c')
    (l l' : List Club) (hl : l.map scrub = l'.map scrub)
    (search : Option String) (id : String) :
    formatClub c = formatClub c' ∧ formatClubDetail c = formatClubDetail c' ∧
      getClubsHandler (.ok l) search = getClubsHandler (.ok l') search ∧
      getClubByIdHandler (.ok l) id = getClubByIdHandler (.ok l') id := by
  refine ⟨?_, ?_, ?_, ?_⟩
  · rw [← formatClub_scrub c, hc, formatClub_scrub]
  · rw [← formatClubDetail_scrub c, hc, formatClubDetail_scrub]
  · have key : ∀ m : List Club,
        (clubsQuery m search).map formatClub =
          (clubsQuery (m.map scrub) search).map formatClub := by
      intro m
      rw [clubsQuery_scrub, List.map_map]
      rfl
    have hd : (clubsQuery l search).map formatClub =
        (clubsQuery l' search).map formatClub := by
      rw [key l, key l', hl]
    show ApiResult.ok 200 ((clubsQuery l search).map formatClub,
        ((clubsQuery l search).map formatClub).length) =
      ApiResult.ok 200 ((clubsQuery l' search).map formatClub,
        ((clubsQuery l' search).map formatClub).length)
    rw [hd]
  · have hf : (l.find? (fun c => c._id == id)).map scrub =
        (l'.find? (fun c => c._id == id)).map scrub := by
      rw [← find?_scrub, ← find?_scrub, hl]
    have key : ∀ m : List Club, getClubByIdHandler (.ok m) id =
        if isValidObjectId id then
          (match m.find? (fun c => c._id == id) with
            | none => ApiResult.err 404 "NOT_FOUND" "未找到该社团"
            | some c => ApiResult.ok 200 (formatClubDetail c))
        else ApiResult.err 500 "SERVER_ERROR" "获取社团详情失败" := fun m => rfl
    rw [key l, key l']
    by_cases hv : isValidObjectId id = true
    case neg => rw [if_neg hv, if_neg hv]
    case pos =>
    rw [if_pos hv, if_pos hv]
    cases h1 : l.find? (fun c => c._id == id) with
    | none =>
      cases h2 : l'.find? (fun c => c._id == id) with
      | none => rfl
      | some d => rw [h1, h2] at hf; cases hf
    | some d =>
      cases h2 : l'.find? (fun c => c._id == id) with
      | none => rw [h1, h2] at hf; cases hf
      | some d' =>
        rw [h1, h2] at hf
        have hdd : scrub d = scrub d' := by
          simpa using hf
        simp only []
        rw [← formatClubDetail_scrub d, hdd, formatClubDetail_scrub]

/-- C10 witness: two one-club stores whose records differ only in
`sourceSubmission` and `verifiedBy` produce identical responses on both
endpoints. -/
theorem public_responses_independent_witness :
    formatClub demoClub =
        formatClub { demoClub with sourceSubmission := none, verifiedBy := some "root" } ∧
      formatClubDetail demoClub =
        formatClubDetail { demoClub with sourceSubmission := none, verifiedBy := some "root" } ∧
      getClubsHandler (.ok [demoClub]) (some "游戏") =
        getClubsHandler
          (.ok [{ demoClub with sourceSubmission := none, verifiedBy := some "root" }])
          (some "游戏") ∧
      getClubByIdHandler (.ok [demoClub]) "673257c0c5e4f2a1d8b9e013" =
        getClubByIdHandler
          (.ok [{ demoClub with sourceSubmission := none, verifiedBy := some "root" }])
          "673257c0c5e4f2a1d8b9e013" :=
  public_responses_independent_of_internal_fields demoClub
    { demoClub with sourceSubmission := none, verifiedBy := some "root" } rfl
    [demoClub] [{ demoClub with sourceSubmission := none, verifiedBy := some "root" }] rfl
    (some "游戏") "673257c0c5e4f2a1d8b9e013"

/-! ## C3 — the Approval State Machine (modelled from the spec) -/

/-- Submission lifecycle states: `PENDING` initial, `APPROVED` and
`REJECTED` terminal. -/
inductive SubStatus where
  | pending
  | approved
  | rejected
deriving DecidableEq

/-- The payload of a submission: the fields that become a Club on
approval. -/
structure SubmissionData where
  name : String
  school : String
  province : String
  city : Option String
  coordinates : List ℚ
  description : Option String
  shortDescription : Option String
  tags : Option (List String)
  logo : Option String
  website : Option String
  contact : Option (List (String × String))
deriving DecidableEq

/-- A stored submission document (`Submission` collection of the data
model in `src/docs/API_REFERENCE.md`). -/
structure Submission where
  _id : String
  submitterEmail : String
  status : SubStatus
  data : SubmissionData
  reviewedAt : Option Nat
  reviewedBy : Option String
  rejectionReason : Option String
deriving DecidableEq

/-- The state acted on by the approval transitions: both store collections
plus the snapshot file and its backup. -/
structure SystemState where
  submissions : List Submission
  clubs : List Club
  snapshotFile : String
  backupFile : String
deriving DecidableEq

/-- The outcome reported to the admin caller by a transition;
`invalidStatus` carries the submission's actual current status. -/
inductive TransitionOutcome where
  | approvedOk (submissionId clubId : String)
  | rejectedOk (submissionId : String)
  | invalidStatus (current : SubStatus)
  | notFound
  | missingReason
deriving DecidableEq

/-- Modelled from the spec: the Club document materialized from an
approving submission's payload (approval step 3 in
`src/docs/API_REFERENCE.md`; the submissions route is not under `src/`):
every payload field is carried over verbatim, plus the back-reference to
the submission and the approving actor. -/
def clubFromSubmission (clubId actor : String) (now : Nat) (s : Submission) : Club where
  _id := clubId
  name := s.data.name
  school := s.data.school
  province := s.data.province
  city := s.data.city
  coordinates := s.data.coordinates
  description := s.data.description
  shortDescription := s.data.shortDescription
  tags := s.data.tags
  logo := s.data.logo
  website := s.data.website
  contact := s.data.contact
  sourceSubmission := some s._id
  verifiedBy := some actor
  createdAt := now
  updatedAt := now
  __v := 0

/-- Modelled from the spec: `approve(id, actor)` of the Approval State
Machine (`PUT /api/submissions/:id/approve`; the submissions route is not
under `src/`).  The submission is atomically claimed — only `PENDING` is
transitionable; any other current status fails with `INVALID_STATUS`
carrying the actual current status and leaves the state untouched.  On
success a Club is created from the payload, review metadata is recorded
and the Snapshot Synchronizer is triggered. -/
def approve (st : SystemState) (id actor : String) (now : Nat) (newClubId : String) :
    TransitionOutcome × SystemState :=
  match st.submissions.find? (fun s => s._id == id) with
  | none => (.notFound, st)
  | some s =>
    match s.status with
    | .pending =>
      let club := clubFromSubmission newClubId actor now s
      let s' :=
        { s with
          status := SubStatus.approved
          reviewedAt := some now
          reviewedBy := some actor }
      let clubs' := st.clubs ++ [club]
      (.approvedOk s._id newClubId,
        { submissions := st.submissions.map (fun t => if t._id == s._id then s' else t),
          clubs := clubs',
          snapshotFile := snapshotContent clubs',
          backupFile := st.snapshotFile })
    | _ => (.invalidStatus s.status, st)

/-- Modelled from the spec: `reject(id, actor, reason)` — requires a
non-blank reason, follows the same atomic-claim discipline, records review
metadata and creates no Published Record. -/
def reject (st : SystemState) (id actor reason : String) (now : Nat) :
    TransitionOutcome × SystemState :=
  if jsTrim reason = "" then (.missingReason, st)
  else
    match st.submissions.find? (fun s => s._id == id) with
    | none => (.notFound, st)
    | some s =>
      match s.status with
      | .pending =>
        let s' :=
          { s with
            status := SubStatus.rejected
            reviewedAt := some now
            reviewedBy := some actor
            rejectionReason := some reason }
        (.rejectedOk s._id,
          { st with submissions :=
              st.submissions.map (fun t => if t._id == s._id then s' else t) })
      | _ => (.invalidStatus s.status, st)

/-- C3: re-applying a transition (approve or reject) to a submission whose
status is already terminal (`APPROVED` or `REJECTED`) fails with an
`INVALID_STATUS` error carrying the submission's actual current status,
and has no side effects: the resulting state is exactly the input state —
no new Published Record, unchanged submissions, unchanged snapshot. -/
theorem terminal_retry_fails_without_side_effects
    (st : SystemState) (s : Submission) (id actor reason : String) (now : Nat) (cid : String)
    (hfind : st.submissions.find? (fun t => t._id == id) = some s)
    (hterm : s.status = .approved ∨ s.status = .rejected)
    (hreason : jsTrim reason ≠ "") :
    approve st id actor now cid = (.invalidStatus s.status, st) ∧
      reject st id actor reason now = (.invalidStatus s.status, st) := by
  rcases hterm with h | h <;>
    constructor <;>
    simp [approve, reject, hfind, h, hreason]

/-- A submission that is already in the terminal `APPROVED` state. -/
def approvedDemoSubmission : Submission where
  _id := "sub1"
  submitterEmail := "user@example.com"
  status := .approved
  data := ⟨"游戏社", "清华大学", "北京市", some "海淀区", [], some "B B B", some "A",
    none, none, none, none⟩
  reviewedAt := some 50
  reviewedBy := some "admin1"
  rejectionReason := none

/-- A system state holding one already-approved submission and its club. -/
def demoSystemState : SystemState where
  submissions := [approvedDemoSubmission]
  clubs := [mkPlainClub "c1" 1]
  snapshotFile := "snap"
  backupFile := "back"

/-- C3 witness: retrying approve (or reject) on an already-`APPROVED`
submission fails with `INVALID_STATUS` carrying `APPROVED` and leaves the
state unchanged. -/
theorem terminal_retry_fails_without_side_effects_witness :
    approve demoSystemState "sub1" "admin2" 200 "club2" =
        (.invalidStatus .approved, demoSystemState) ∧
      reject demoSystemState "sub1" "admin2" "duplicate" 200 =
        (.invalidStatus .approved, demoSystemState) :=
  terminal_retry_fails_without_side_effects demoSystemState approvedDemoSubmission
    "sub1" "admin2" "duplicate" 200 "club2" rfl (Or.inl rfl) (by decide)

end GameDevMap
